import Mathlib

/-!
Shallow embedding of `src/mail_module_new.py` (class `GmailClient`).

The two methods `send_message` and `receive_message` are modelled as pure
functions that take the client record, the method arguments, a model of the
remote server's responses (for IMAP) and a fault oracle saying which protocol
step raises, and return the method's result (an `Except` capturing the raised
Python exception, if any), the list of protocol events performed, and the
client record after the call (explicit state passing for `self`).
-/

namespace MailModule

/-- The four fields set by `GmailClient.__init__` (lines 37-40). -/
structure GmailClient where
  login : String
  password : String
  smtp_server : String
  imap_server : String
deriving DecidableEq

/-- Model of `email.mime.text.MIMEText(body)`: a plain-text part with a payload. -/
structure MIMEText where
  payload : String
deriving DecidableEq

/-- Model of the `MIMEMultipart` message built in `send_message` (lines 54-58):
the three headers that are set and the list of attached parts. -/
structure MIMEMultipart where
  from_hdr : String
  to_hdr : String
  subject_hdr : String
  parts : List MIMEText
deriving DecidableEq

/-- Model of a parsed `email.message.Message`: a header mapping plus a body. -/
structure EmailMessage where
  headers : List (String × String)
  body : String
deriving DecidableEq

/-- A Python value that is either a `str` or a `bytes` object.  The distinction
matters at line 92: `imaplib` fetch data is `bytes`, while
`email.message_from_string` requires `str`. -/
inductive PyStr
  | str (s : String)
  | bytes (b : String)
deriving DecidableEq

/-- The protocol steps of `send_message` that can raise (lines 60-65). -/
inductive SmtpStep
  | connect | ehlo1 | starttls | ehlo2 | login | sendmail
deriving DecidableEq

/-- The protocol steps of `receive_message` that can raise (lines 79-89). -/
inductive ImapStep
  | connect | login | list | select | search | fetch
deriving DecidableEq

/-- The Python exceptions the embedded code can raise. -/
inductive PyErr
  | assertionError (msg : String)
  | typeError (msg : String)
  | indexError (msg : String)
  | smtpStepError (s : SmtpStep)
  | imapStepError (s : ImapStep)
deriving DecidableEq

/-- Observable protocol events, in the order the code performs them. -/
inductive MailEvent
  | smtpConnect (host : String) (port : Nat)
  | ehlo
  | starttls
  | smtpLogin (login password : String)
  | sendmail (envelopeFrom : String) (envelopeRecipients : List String)
      (message : MIMEMultipart)
  | smtpClose
  | imapConnect (host : String)
  | imapLogin (login password : String)
  | imapList
  | imapSelect (mailbox : String)
  | uidSearch (searchCriterion : String)
  | uidFetch (uid : String) (parts : String)
  | imapClose
deriving DecidableEq

/-- Result of running one method call: the returned value or raised exception,
the protocol events performed, and the `self` object after the call. -/
structure RunResult (α : Type) where
  result : Except PyErr α
  trace : List MailEvent
  selfAfter : GmailClient

/-- Model of the IMAP server's responses: `searchResult crit` is the payload
bytes `data[0]` returned by `UID SEARCH crit` (space-separated UIDs, empty on
no match), and `fetchResult uid` is the raw RFC 822 bytes `data[0][1]`
returned by `UID FETCH uid (RFC822)`. -/
structure ImapServer where
  searchResult : String → String
  fetchResult : String → String

/-- Line 83: `criterion = '(HEADER Subject "%s")' % subject if subject else 'ALL'`.
Python truthiness: `None` and the empty string are falsy. -/
def criterion (subject : Option String) : String :=
  match subject with
  | some s => if s = "" then "ALL" else "(HEADER Subject \"" ++ s ++ "\")"
  | none => "ALL"

/-- The characters Python `bytes.split()` with no argument splits on. -/
def isPyWhitespace (c : Char) : Bool :=
  c == ' ' || c == '\t' || c == '\n' || c == '\r' || c == '\x0b' || c == '\x0c'

/-- Accumulator pass over the characters: collect maximal runs of
non-whitespace characters. -/
def pySplitAux : List Char → List Char → List String
  | [], acc => if acc.isEmpty then [] else [⟨acc.reverse⟩]
  | ch :: cs, acc =>
    if isPyWhitespace ch then
      if acc.isEmpty then pySplitAux cs []
      else (⟨acc.reverse⟩ : String) :: pySplitAux cs []
    else pySplitAux cs (ch :: acc)

/-- Python `bytes.split()` with no argument: split on runs of ASCII whitespace,
discarding empty pieces (used at line 88 on the search payload). -/
def pyBytesSplit (s : String) : List String :=
  pySplitAux s.toList []

/-- Minimal model of the `email` library's RFC 822 parse: header lines up to
the first blank line, then the body. -/
def parseRfc822 (s : String) : EmailMessage :=
  match s.splitOn "\n\n" with
  | [] => { headers := [], body := "" }
  | h :: rest =>
    { headers := (h.splitOn "\n").filterMap fun line =>
        match line.splitOn ": " with
        | name :: v :: vs => some (name, String.intercalate ": " (v :: vs))
        | _ => none
      body := String.intercalate "\n\n" rest }

/-- Model of `email.message_from_string`: parses a `str`; called on `bytes`
it raises `TypeError` (CPython: `StringIO(text)` rejects non-`str` input). -/
def message_from_string : PyStr → Except PyErr EmailMessage
  | PyStr.str s => Except.ok (parseRfc822 s)
  | PyStr.bytes _ =>
      Except.error (PyErr.typeError "initial_value must be str or None, not bytes")

/-- Lines 54-58: build the outgoing message.  `msg['To'] = ', '.join(recipient_list)`. -/
def buildMessage (c : GmailClient) (subj : String) (recipient_list : List String)
    (body : String) : MIMEMultipart :=
  { from_hdr := c.login
    to_hdr := String.intercalate ", " recipient_list
    subject_hdr := subj
    parts := [⟨body⟩] }

/-- Run a straight-line sequence of protocol steps: each step either raises
(per the fault oracle, producing no event) or records its event and continues. -/
def runSmtpSteps (o : SmtpStep → Bool) :
    List (SmtpStep × MailEvent) → Except PyErr Unit × List MailEvent
  | [] => (Except.ok (), [])
  | (s, e) :: rest =>
    if o s then (Except.error (PyErr.smtpStepError s), [])
    else
      let r := runSmtpSteps o rest
      (r.1, e :: r.2)

/-- `GmailClient.send_message` (lines 42-65).  The `with smtplib.SMTP(...)`
block: if the connect raises, no connection exists and nothing is closed;
otherwise the body runs (each step may raise) and the connection is closed on
exit from the block on every path. -/
def send_message (c : GmailClient) (subj : String) (recipient_list : List String)
    (body : String) (o : SmtpStep → Bool) : RunResult Unit :=
  let msg := buildMessage c subj recipient_list body
  if o SmtpStep.connect then
    { result := Except.error (PyErr.smtpStepError SmtpStep.connect)
      trace := []
      selfAfter := c }
  else
    let inner := runSmtpSteps o
      [(SmtpStep.ehlo1, MailEvent.ehlo),
       (SmtpStep.starttls, MailEvent.starttls),
       (SmtpStep.ehlo2, MailEvent.ehlo),
       (SmtpStep.login, MailEvent.smtpLogin c.login c.password),
       (SmtpStep.sendmail, MailEvent.sendmail c.login recipient_list msg)]
    { result := inner.1
      trace := MailEvent.smtpConnect c.smtp_server 587 :: inner.2 ++ [MailEvent.smtpClose]
      selfAfter := c }

/-- The oracle under which no SMTP protocol step raises. -/
def noSmtpFault : SmtpStep → Bool := fun _ => false

/-- Body of the `with imaplib.IMAP4_SSL(...)` block of `receive_message`
(lines 80-92), given the already-computed search criterion `crit`:
login, list, select, UID search, the assert on `data[0]`, `data[0].split()[-1]`,
UID fetch, and `email.message_from_string` applied to the fetched bytes. -/
def receiveBody (c : GmailClient) (crit : String) (srv : ImapServer)
    (o : ImapStep → Bool) : Except PyErr EmailMessage × List MailEvent :=
  if o ImapStep.login then (Except.error (PyErr.imapStepError ImapStep.login), [])
  else if o ImapStep.list then
    (Except.error (PyErr.imapStepError ImapStep.list),
     [MailEvent.imapLogin c.login c.password])
  else if o ImapStep.select then
    (Except.error (PyErr.imapStepError ImapStep.select),
     [MailEvent.imapLogin c.login c.password, MailEvent.imapList])
  else if o ImapStep.search then
    (Except.error (PyErr.imapStepError ImapStep.search),
     [MailEvent.imapLogin c.login c.password, MailEvent.imapList,
      MailEvent.imapSelect "inbox"])
  else
    let data0 := srv.searchResult crit
    let t := [MailEvent.imapLogin c.login c.password, MailEvent.imapList,
      MailEvent.imapSelect "inbox", MailEvent.uidSearch crit]
    if data0 = "" then
      (Except.error (PyErr.assertionError "There are no letters with current header"), t)
    else
      match (pyBytesSplit data0).getLast? with
      | none => (Except.error (PyErr.indexError "list index out of range"), t)
      | some latest_email_uid =>
        if o ImapStep.fetch then
          (Except.error (PyErr.imapStepError ImapStep.fetch), t)
        else
          let raw_email := srv.fetchResult latest_email_uid
          (message_from_string (PyStr.bytes raw_email),
           t ++ [MailEvent.uidFetch latest_email_uid "(RFC822)"])

/-- `GmailClient.receive_message` (lines 67-92): the `with` wrapper around
`receiveBody`.  If the connect raises, no connection exists; otherwise the
connection is closed (IMAP logout) on exit from the block on every path. -/
def receive_message (c : GmailClient) (subject : Option String) (srv : ImapServer)
    (o : ImapStep → Bool) : RunResult EmailMessage :=
  if o ImapStep.connect then
    { result := Except.error (PyErr.imapStepError ImapStep.connect)
      trace := []
      selfAfter := c }
  else
    let r := receiveBody c (criterion subject) srv o
    { result := r.1
      trace := MailEvent.imapConnect c.imap_server :: r.2 ++ [MailEvent.imapClose]
      selfAfter := c }

/-- The oracle under which no IMAP protocol step raises. -/
def noImapFault : ImapStep → Bool := fun _ => false

/-- The client constructed in the illustrative entry point (lines 96-101). -/
def demoClient : GmailClient :=
  { login := "login@gmail.com"
    password := "qwerty"
    smtp_server := "smtp.gmail.com"
    imap_server := "imap.gmail.com" }

/-- A mailbox in which every search matches UIDs 1, 2, 3 and UID 3 holds a
concrete raw message. -/
def demoServer : ImapServer :=
  { searchResult := fun _ => "1 2 3"
    fetchResult := fun uid => if uid = "3" then "Subject: hi\n\nhello" else "" }

/-- A mailbox in which every search returns the empty result set. -/
def emptyServer : ImapServer :=
  { searchResult := fun _ => ""
    fetchResult := fun _ => "" }

/-- C1, counterexample: the claim says `receive_message s` builds the criterion
`HEADER Subject "<s>"` exactly for every subject string `s`.  At `s = "x"` the
code builds `(HEADER Subject "x")` — wrapped in parentheses — and at `s = ""`
it builds `ALL`, so the claim as stated is false. -/
theorem criterion_counterexample :
    criterion (some "x") ≠ "HEADER Subject \"x\"" ∧
    criterion (some "x") = "(HEADER Subject \"x\")" ∧
    criterion (some "") = "ALL" ∧
    criterion none = "ALL" := by
  refine ⟨by decide, rfl, rfl, rfl⟩

/-- C1, amended: for every non-empty subject string `s`, `receive_message s`
builds the search criterion `(HEADER Subject "<s>")` — the HEADER criterion
wrapped in parentheses — with `s` inserted verbatim and unescaped inside the
quotes, and that criterion is the one passed to the UID search;
`receive_message none` uses `ALL`. -/
theorem receive_search_criterion (s : String) (hs : s ≠ "") :
    criterion (some s) = "(HEADER Subject \"" ++ s ++ "\")" ∧
    criterion none = "ALL" ∧
    ∀ (c : GmailClient) (srv : ImapServer),
      MailEvent.uidSearch (criterion (some s)) ∈
        (receive_message c (some s) srv noImapFault).trace := by
  refine ⟨by simp [criterion, hs], rfl, ?_⟩
  intro c srv
  show MailEvent.uidSearch (criterion (some s)) ∈
    MailEvent.imapConnect c.imap_server ::
      (receiveBody c (criterion (some s)) srv noImapFault).2 ++ [MailEvent.imapClose]
  have hmem : MailEvent.uidSearch (criterion (some s)) ∈
      (receiveBody c (criterion (some s)) srv noImapFault).2 := by
    unfold receiveBody noImapFault
    simp only [Bool.false_eq_true, if_false]
    split
    · simp
    · split
      · simp
      · simp
  simp [hmem]

/-- C1, witness for the amended theorem at the concrete subject `"x"`. -/
theorem receive_search_criterion_witness :
    ("x" : String) ≠ "" ∧ criterion (some "x") = "(HEADER Subject \"x\")" :=
  ⟨by decide, (receive_search_criterion "x" (by decide)).1⟩

/-- C4: the wire message built by `send_message` has a `To` header equal to the
recipient strings joined by `", "` in input order, and that message is the one
handed to the SMTP submission. -/
theorem to_header_joins_recipients (c : GmailClient) (subj : String)
    (rl : List String) (body : String) :
    (buildMessage c subj rl body).to_hdr = String.intercalate ", " rl ∧
    MailEvent.sendmail c.login rl (buildMessage c subj rl body) ∈
      (send_message c subj rl body noSmtpFault).trace := by
  refine ⟨rfl, ?_⟩
  show MailEvent.sendmail c.login rl (buildMessage c subj rl body) ∈
    [MailEvent.smtpConnect c.smtp_server 587, MailEvent.ehlo, MailEvent.starttls,
     MailEvent.ehlo, MailEvent.smtpLogin c.login c.password,
     MailEvent.sendmail c.login rl (buildMessage c subj rl body), MailEvent.smtpClose]
  simp

/-- C6: on a fault-free run, `send_message` performs, in this exact order, on a
connection to `smtp_server` port 587: EHLO, STARTTLS, EHLO again,
authentication with login/password, then submission — and nothing else before
submission. -/
theorem smtp_protocol_step_order (c : GmailClient) (subj : String)
    (rl : List String) (body : String) :
    (send_message c subj rl body noSmtpFault).trace =
      [MailEvent.smtpConnect c.smtp_server 587, MailEvent.ehlo, MailEvent.starttls,
       MailEvent.ehlo, MailEvent.smtpLogin c.login c.password,
       MailEvent.sendmail c.login rl (buildMessage c subj rl body),
       MailEvent.smtpClose] := rfl

/-- C7: the envelope sender is the `login` field and the envelope recipients are
exactly the recipient list passed in; in the concrete scenario of the entry
point, delivery is attempted to both addresses after authentication, with
header `To: vasya@email.com, petya@email.com`. -/
theorem send_envelope_and_concrete_scenario :
    (∀ (c : GmailClient) (subj : String) (rl : List String) (body : String),
      MailEvent.sendmail c.login rl (buildMessage c subj rl body) ∈
        (send_message c subj rl body noSmtpFault).trace) ∧
    (send_message demoClient "Subject" ["vasya@email.com", "petya@email.com"]
        "Message" noSmtpFault).trace =
      [MailEvent.smtpConnect "smtp.gmail.com" 587, MailEvent.ehlo, MailEvent.starttls,
       MailEvent.ehlo, MailEvent.smtpLogin "login@gmail.com" "qwerty",
       MailEvent.sendmail "login@gmail.com" ["vasya@email.com", "petya@email.com"]
         { from_hdr := "login@gmail.com"
           to_hdr := "vasya@email.com, petya@email.com"
           subject_hdr := "Subject"
           parts := [⟨"Message"⟩] },
       MailEvent.smtpClose] := by
  constructor
  · intro c subj rl body
    show MailEvent.sendmail c.login rl (buildMessage c subj rl body) ∈
      [MailEvent.smtpConnect c.smtp_server 587, MailEvent.ehlo, MailEvent.starttls,
       MailEvent.ehlo, MailEvent.smtpLogin c.login c.password,
       MailEvent.sendmail c.login rl (buildMessage c subj rl body), MailEvent.smtpClose]
    simp
  · rfl

/-- C8: an empty recipient list is not rejected client-side: the message is
still built (with an empty `To` header) and the SMTP submission is attempted
with no recipients, and the fault-free call returns normally. -/
theorem empty_recipients_still_sent (c : GmailClient) (subj : String) (body : String) :
    (send_message c subj [] body noSmtpFault).result = Except.ok () ∧
    (buildMessage c subj [] body).to_hdr = "" ∧
    MailEvent.sendmail c.login [] (buildMessage c subj [] body) ∈
      (send_message c subj [] body noSmtpFault).trace := by
  refine ⟨rfl, rfl, ?_⟩
  show MailEvent.sendmail c.login [] (buildMessage c subj [] body) ∈
    [MailEvent.smtpConnect c.smtp_server 587, MailEvent.ehlo, MailEvent.starttls,
     MailEvent.ehlo, MailEvent.smtpLogin c.login c.password,
     MailEvent.sendmail c.login [] (buildMessage c subj [] body), MailEvent.smtpClose]
  simp

/-- C9: neither method mutates the client: the `self` record after every call to
`send_message` or `receive_message` — normal return or raise, under every fault
oracle — equals the record before it, so all four fields are unchanged. -/
theorem methods_do_not_mutate_client :
    (∀ (c : GmailClient) (subj : String) (rl : List String) (body : String)
        (o : SmtpStep → Bool), (send_message c subj rl body o).selfAfter = c) ∧
    (∀ (c : GmailClient) (subject : Option String) (srv : ImapServer)
        (o : ImapStep → Bool), (receive_message c subject srv o).selfAfter = c) := by
  constructor
  · intro c subj rl body o
    unfold send_message
    split <;> rfl
  · intro c subject srv o
    unfold receive_message
    split <;> rfl

/-- When the search payload for the criterion is empty, the body of
`receive_message` stops at the assert with the documented message, having
performed login, list, select and the search only. -/
theorem receiveBody_empty_search (c : GmailClient) (crit : String) (srv : ImapServer)
    (h : srv.searchResult crit = "") :
    receiveBody c crit srv noImapFault =
      (Except.error (PyErr.assertionError "There are no letters with current header"),
       [MailEvent.imapLogin c.login c.password, MailEvent.imapList,
        MailEvent.imapSelect "inbox", MailEvent.uidSearch crit]) := by
  unfold receiveBody noImapFault
  simp [h]

/-- C2: if the UID search returns an empty result set, `receive_message` fails
with the documented assertion error and no fetch is ever attempted. -/
theorem empty_search_asserts_no_fetch (c : GmailClient) (subject : Option String)
    (srv : ImapServer) (h : srv.searchResult (criterion subject) = "") :
    (receive_message c subject srv noImapFault).result =
      Except.error (PyErr.assertionError "There are no letters with current header") ∧
    ∀ uid parts, MailEvent.uidFetch uid parts ∉
      (receive_message c subject srv noImapFault).trace := by
  constructor
  · show (receiveBody c (criterion subject) srv noImapFault).1 = _
    rw [receiveBody_empty_search c (criterion subject) srv h]
  · intro uid parts
    show MailEvent.uidFetch uid parts ∉
      MailEvent.imapConnect c.imap_server ::
        (receiveBody c (criterion subject) srv noImapFault).2 ++ [MailEvent.imapClose]
    rw [receiveBody_empty_search c (criterion subject) srv h]
    simp

/-- C2, witness: the empty mailbox, queried with no subject. -/
theorem empty_search_asserts_no_fetch_witness :
    emptyServer.searchResult (criterion none) = "" ∧
    (receive_message demoClient none emptyServer noImapFault).result =
      Except.error (PyErr.assertionError "There are no letters with current header") ∧
    MailEvent.uidFetch "1" "(RFC822)" ∉
      (receive_message demoClient none emptyServer noImapFault).trace :=
  ⟨rfl, (empty_search_asserts_no_fetch demoClient none emptyServer rfl).1,
    (empty_search_asserts_no_fetch demoClient none emptyServer rfl).2 "1" "(RFC822)"⟩

/-- C3, code-bug exhibit: on a mailbox where the search returns UIDs `1 2 3`,
the fault-free `receive_message` does fetch exactly the last UID `3` — but it
then hands the fetched bytes to `email.message_from_string`, which requires a
`str`, so the call raises `TypeError` instead of returning the parsed message
its own docstring promises. -/
theorem fetch_last_uid_parse_raises_typeerror :
    (receive_message demoClient none demoServer noImapFault).trace =
      [MailEvent.imapConnect "imap.gmail.com",
       MailEvent.imapLogin "login@gmail.com" "qwerty", MailEvent.imapList,
       MailEvent.imapSelect "inbox", MailEvent.uidSearch "ALL",
       MailEvent.uidFetch "3" "(RFC822)", MailEvent.imapClose] ∧
    (receive_message demoClient none demoServer noImapFault).result =
      Except.error (PyErr.typeError "initial_value must be str or None, not bytes") :=
  ⟨rfl, rfl⟩

/-- Every event in the trace of a straight-line SMTP step sequence is one of
the events of the sequence itself. -/
theorem runSmtpSteps_trace_subset (o : SmtpStep → Bool)
    (steps : List (SmtpStep × MailEvent)) :
    ∀ e ∈ (runSmtpSteps o steps).2, e ∈ steps.map Prod.snd := by
  induction steps with
  | nil => intro e he; simp [runSmtpSteps] at he
  | cons p rest ih =>
    obtain ⟨s, ev⟩ := p
    intro e he
    simp only [runSmtpSteps] at he
    split at he
    · simp at he
    · simp only [List.mem_cons] at he
      rcases he with h | h
      · simp [h]
      · simp [ih e h]

/-- The body of the `with` block of `receive_message` never emits the
connection-close event itself: closing happens only in the wrapper. -/
theorem imapClose_not_mem_receiveBody (c : GmailClient) (crit : String)
    (srv : ImapServer) (o : ImapStep → Bool) :
    MailEvent.imapClose ∉ (receiveBody c crit srv o).2 := by
  simp only [receiveBody]
  repeat' split
  all_goals simp

/-- C5: whenever the connection is established, both methods release it exactly
once — the close/logout event occurs exactly once in the trace — on every exit
path, under every fault oracle (any protocol step may raise mid-operation). -/
theorem connection_closed_exactly_once :
    (∀ (c : GmailClient) (subj : String) (rl : List String) (body : String)
        (o : SmtpStep → Bool), o SmtpStep.connect = false →
      (send_message c subj rl body o).trace.count MailEvent.smtpClose = 1) ∧
    (∀ (c : GmailClient) (subject : Option String) (srv : ImapServer)
        (o : ImapStep → Bool), o ImapStep.connect = false →
      (receive_message c subject srv o).trace.count MailEvent.imapClose = 1) := by
  constructor
  · intro c subj rl body o h
    have hnot : MailEvent.smtpClose ∉
        (runSmtpSteps o
          [(SmtpStep.ehlo1, MailEvent.ehlo),
           (SmtpStep.starttls, MailEvent.starttls),
           (SmtpStep.ehlo2, MailEvent.ehlo),
           (SmtpStep.login, MailEvent.smtpLogin c.login c.password),
           (SmtpStep.sendmail,
             MailEvent.sendmail c.login rl (buildMessage c subj rl body))]).2 := by
      intro hmem
      have hx := runSmtpSteps_trace_subset o _ _ hmem
      simp at hx
    simp [send_message, h, List.count_cons, List.count_append,
      List.count_eq_zero.mpr hnot]
  · intro c subject srv o h
    have hnot := imapClose_not_mem_receiveBody c (criterion subject) srv o
    simp [receive_message, h, List.count_cons, List.count_append,
      List.count_eq_zero.mpr hnot]

/-- C5, witness: fault-free runs of both methods on the demo configuration. -/
theorem connection_closed_exactly_once_witness :
    noSmtpFault SmtpStep.connect = false ∧
    (send_message demoClient "Subject" ["vasya@email.com", "petya@email.com"]
        "Message" noSmtpFault).trace.count MailEvent.smtpClose = 1 ∧
    noImapFault ImapStep.connect = false ∧
    (receive_message demoClient none demoServer noImapFault).trace.count
      MailEvent.imapClose = 1 :=
  ⟨rfl,
   connection_closed_exactly_once.1 demoClient "Subject"
     ["vasya@email.com", "petya@email.com"] "Message" noSmtpFault rfl,
   rfl,
   connection_closed_exactly_once.2 demoClient none demoServer noImapFault rfl⟩

/-- C10: calling `receive_message` with the empty string behaves exactly like
calling it with `None`: the subject is tested for truthiness, so both use the
criterion `ALL` and the whole run is identical. -/
theorem empty_subject_behaves_like_none (c : GmailClient) (srv : ImapServer)
    (o : ImapStep → Bool) :
    receive_message c (some "") srv o = receive_message c none srv o := rfl

end MailModule
